import Mathlib

/-!
Verification of the `useUldk` hook: the ULDK list parsing, the WKB geometry
pipeline with EPSG:2180 → EPSG:4326 reprojection, and the request
orchestrator state updates.  Shallow embedding of `src/README.md`
(`hooks/useUldk.ts`): JS strings are Lean `String`s, JS arrays are `List`s,
JS numbers are `ℝ`, thrown exceptions are `Except` errors, `undefined`
results are `Option.none`, and the React state is passed explicitly.
-/

namespace Uldk

/-- Auxiliary for `jsSplit`: split a character list at every occurrence of
`sep`, with `acc` holding the (reversed) characters of the current piece.
JS semantics: `"a\n".split("\n") = ["a", ""]`. -/
def jsSplitAux (sep : Char) : List Char → List Char → List (List Char)
  | [], acc => [acc.reverse]
  | c :: cs, acc =>
      if c = sep then acc.reverse :: jsSplitAux sep cs []
      else jsSplitAux sep cs (c :: acc)

/-- JS `s.split(sep)` for a single-character separator (the source only ever
splits on `"\n"` and `"|"`). -/
def jsSplit (s : String) (sep : Char) : List String :=
  (jsSplitAux sep s.toList []).map (fun cs => String.mk cs)

/-- Auxiliary for `jsIncludes`: does `pat` occur as a contiguous block
anywhere in the list? -/
def containsSub (pat : List Char) : List Char → Bool
  | [] => pat.isPrefixOf []
  | c :: cs => pat.isPrefixOf (c :: cs) || containsSub pat cs

/-- JS `s.includes(pat)`: substring containment test. -/
def jsIncludes (s pat : String) : Bool :=
  containsSub pat.toList s.toList

/-- The `Option` type of the hook module (`{ label: string; value: string }`),
renamed `ULOption` because `Option` is taken by Lean. -/
structure ULOption where
  label : String
  value : String
deriving DecidableEq, Repr

/-- `prepareData` from the source: split the response on newlines, drop the
header line (`list.shift()`), keep the lines containing a pipe, and build
`{ value, label }` from the first two fields of `val.split("|")`
(the JS destructuring `const [label, value] = val.split("|")`). -/
def prepareData (data : String) : List ULOption :=
  let list := jsSplit data '\n'
  (list.drop 1).filter (fun val => jsIncludes val "|")
    |>.map (fun val =>
      let parts := jsSplit val '|'
      { label := parts.headD "", value := (parts.drop 1).headD "" })

/-- Errors thrown inside the `try` block of `prepareGeometry`:
`notFound` is the `new Error("Resource not found")` thrown when the status
line contains `-1`; `decodeError` is any error thrown by
`wkx.Geometry.parse` on a malformed binary geometry. -/
inductive UldkError where
  | notFound
  | decodeError
deriving DecidableEq, Repr

/-- GeoJSON geometries as produced by `toGeoJSON` of `wkx`, with JS numbers
modelled as `ℝ` and a position as an `(x, y)` pair.  `GeometryCollection`
is omitted: the remote service never returns one for these requests. -/
inductive Geometry where
  | point (coordinates : ℝ × ℝ)
  | lineString (coordinates : List (ℝ × ℝ))
  | polygon (coordinates : List (List (ℝ × ℝ)))
  | multiPoint (coordinates : List (ℝ × ℝ))
  | multiLineString (coordinates : List (List (ℝ × ℝ)))
  | multiPolygon (coordinates : List (List (List (ℝ × ℝ))))

/-- Hex digit value, as in the Node `Buffer.from(·, "hex")`. -/
def hexDigit (c : Char) : Option Nat :=
  if '0' ≤ c ∧ c ≤ '9' then some (c.toNat - 48)
  else if 'a' ≤ c ∧ c ≤ 'f' then some (c.toNat - 87)
  else if 'A' ≤ c ∧ c ≤ 'F' then some (c.toNat - 55)
  else none

/-- Auxiliary for `hexDecode`: decode hex-digit pairs into bytes, stopping
at the first invalid pair or a trailing lone digit (the Node `Buffer.from`
with `"hex"` truncates instead of throwing). -/
def hexDecodeAux : List Char → List Nat
  | c1 :: c2 :: rest =>
      match hexDigit c1, hexDigit c2 with
      | some h, some l => (16 * h + l) :: hexDecodeAux rest
      | _, _ => []
  | _ => []

/-- `Buffer.from(s, "hex")`: the byte list decoded from a hex string. -/
def hexDecode (s : String) : List Nat := hexDecodeAux s.toList

/-- Take exactly `n` bytes off the front of a byte list. -/
def takeBytes : Nat → List Nat → Option (List Nat × List Nat)
  | 0, bs => some ([], bs)
  | _ + 1, [] => none
  | n + 1, b :: bs =>
      match takeBytes n bs with
      | some (ts, rest) => some (b :: ts, rest)
      | none => none

/-- Combine a little-endian byte list into a natural number. -/
def bytesToNatLE : List Nat → Nat
  | [] => 0
  | b :: bs => b + 256 * bytesToNatLE bs

/-- Read a 32-bit unsigned integer with the given endianness
(`le = true` for little-endian). -/
def readUInt32 (le : Bool) (bs : List Nat) : Option (Nat × List Nat) :=
  match takeBytes 4 bs with
  | some (ts, rest) => some (bytesToNatLE (if le then ts else ts.reverse), rest)
  | none => none

/-- Value of an IEEE-754 binary64 bit pattern as a real number.  The
non-finite patterns (exponent 2047: infinities and NaN) have no image in
`ℝ` and are mapped to `0`; no claim exercises them. -/
noncomputable def f64Value (bits : Nat) : ℝ :=
  let sign : ℝ := if bits / 2 ^ 63 % 2 = 0 then 1 else -1
  let expo : Nat := bits / 2 ^ 52 % 2 ^ 11
  let mant : Nat := bits % 2 ^ 52
  if expo = 2047 then 0
  else if expo = 0 then sign * mant * (2 : ℝ) ^ (-1074 : ℤ)
  else sign * (2 ^ 52 + mant) * (2 : ℝ) ^ ((expo : ℤ) - 1075)

/-- Read an IEEE-754 binary64 number with the given endianness. -/
noncomputable def readF64 (le : Bool) (bs : List Nat) : Option (ℝ × List Nat) :=
  match takeBytes 8 bs with
  | some (ts, rest) => some (f64Value (bytesToNatLE (if le then ts else ts.reverse)), rest)
  | none => none

/-- Read one coordinate position (two doubles). -/
noncomputable def readPosition (le : Bool) (bs : List Nat) :
    Option ((ℝ × ℝ) × List Nat) := do
  let (x, bs) ← readF64 le bs
  let (y, bs) ← readF64 le bs
  some ((x, y), bs)

/-- Read `n` coordinate positions. -/
noncomputable def readPositions (le : Bool) :
    Nat → List Nat → Option (List (ℝ × ℝ) × List Nat)
  | 0, bs => some ([], bs)
  | n + 1, bs => do
      let (p, bs) ← readPosition le bs
      let (ps, bs) ← readPositions le n bs
      some (p :: ps, bs)

/-- Read `n` linear rings, each a point count followed by that many
positions. -/
noncomputable def readRings (le : Bool) :
    Nat → List Nat → Option (List (List (ℝ × ℝ)) × List Nat)
  | 0, bs => some ([], bs)
  | n + 1, bs => do
      let (cnt, bs) ← readUInt32 le bs
      let (ps, bs) ← readPositions le cnt bs
      let (rs, bs) ← readRings le n bs
      some (ps :: rs, bs)

/-- Read a WKB header: the byte-order byte (0 = big-endian, 1 =
little-endian, anything else is malformed) and the 32-bit geometry type. -/
def readGeomHeader (bs : List Nat) : Option (Bool × Nat × List Nat) := do
  match bs with
  | 0 :: rest => do
      let (t, rest) ← readUInt32 false rest
      some (false, t, rest)
  | 1 :: rest => do
      let (t, rest) ← readUInt32 true rest
      some (true, t, rest)
  | _ => none

/-- Read a polygon body: a ring count followed by that many rings. -/
noncomputable def readPolygonBody (le : Bool) (bs : List Nat) :
    Option (List (List (ℝ × ℝ)) × List Nat) := do
  let (n, bs) ← readUInt32 le bs
  readRings le n bs

/-- Read `n` nested WKB polygons (each with its own header, type 3), as
they appear inside a `MultiPolygon`. -/
noncomputable def readPolygonsWkb :
    Nat → List Nat → Option (List (List (List (ℝ × ℝ))) × List Nat)
  | 0, bs => some ([], bs)
  | n + 1, bs => do
      let (le, t, bs) ← readGeomHeader bs
      if t = 3 then do
        let (p, bs) ← readPolygonBody le bs
        let (ps, bs) ← readPolygonsWkb n bs
        some (p :: ps, bs)
      else none

/-- Read `n` nested WKB points (each with its own header, type 1), as they
appear inside a `MultiPoint`. -/
noncomputable def readPointsWkb :
    Nat → List Nat → Option (List (ℝ × ℝ) × List Nat)
  | 0, bs => some ([], bs)
  | n + 1, bs => do
      let (le, t, bs) ← readGeomHeader bs
      if t = 1 then do
        let (p, bs) ← readPosition le bs
        let (ps, bs) ← readPointsWkb n bs
        some (p :: ps, bs)
      else none

/-- Read `n` nested WKB line strings (each with its own header, type 2),
as they appear inside a `MultiLineString`. -/
noncomputable def readLineStringsWkb :
    Nat → List Nat → Option (List (List (ℝ × ℝ)) × List Nat)
  | 0, bs => some ([], bs)
  | n + 1, bs => do
      let (le, t, bs) ← readGeomHeader bs
      if t = 2 then do
        let (cnt, bs) ← readUInt32 le bs
        let (ps, bs) ← readPositions le cnt bs
        let (ls, bs) ← readLineStringsWkb n bs
        some (ps :: ls, bs)
      else none

/-- Parse a 2-D WKB byte sequence into a geometry. -/
noncomputable def parseWkb (bs : List Nat) : Option Geometry := do
  let (le, t, bs) ← readGeomHeader bs
  match t with
  | 1 => do
      let (p, _) ← readPosition le bs
      some (.point p)
  | 2 => do
      let (n, bs) ← readUInt32 le bs
      let (ps, _) ← readPositions le n bs
      some (.lineString ps)
  | 3 => do
      let (rs, _) ← readPolygonBody le bs
      some (.polygon rs)
  | 4 => do
      let (n, bs) ← readUInt32 le bs
      let (ps, _) ← readPointsWkb n bs
      some (.multiPoint ps)
  | 5 => do
      let (n, bs) ← readUInt32 le bs
      let (ls, _) ← readLineStringsWkb n bs
      some (.multiLineString ls)
  | 6 => do
      let (n, bs) ← readUInt32 le bs
      let (ps, _) ← readPolygonsWkb n bs
      some (.multiPolygon ps)
  | _ => none

/-- Modelled from the spec: `wkx.Geometry.parse(Buffer.from(s, "hex"))`
followed by `toGeoJSON()` — the `wkx` library is an external dependency
not present under `src/`; this decoder follows the spec, "standard binary
geometry format" (WKB, see the glossary of the spec), hex-encoded, and fails
(the library throws) on malformed input. -/
noncomputable def wkxParse (s : String) : Option Geometry :=
  parseWkb (hexDecode s)

/-! Modelled from the spec: the `proj4` transform from `"EPSG:2180"`
(registered in the source as `+proj=tmerc +lat_0=0 +lon_0=19 +k=0.9993
+x_0=500000 +y_0=-5300000 +datum=WGS84 +units=m +no_defs`) to
`"EPSG:4326"`.  The `proj4` library is an external dependency not present
under `src/`; the definitions below follow §4.3 of the spec: "a closed-form
cartographic projection inverse", the standard (Snyder) ellipsoidal
Transverse Mercator inverse series with the fixed parameters above on the
WGS84 ellipsoid, returning geographic `[lon, lat]` in degrees. -/

/-- WGS84 semi-major axis in meters. -/
noncomputable def tmA : ℝ := 6378137

/-- WGS84 flattening. -/
noncomputable def tmF : ℝ := 1 / 298.257223563

/-- First eccentricity squared. -/
noncomputable def tmE2 : ℝ := tmF * (2 - tmF)

/-- Second eccentricity squared. -/
noncomputable def tmEp2 : ℝ := tmE2 / (1 - tmE2)

/-- Scale factor on the central meridian (`+k=0.9993`). -/
noncomputable def tmK0 : ℝ := 0.9993

/-- Central meridian 19°E in radians (`+lon_0=19`). -/
noncomputable def tmLam0 : ℝ := 19 * Real.pi / 180

/-- False easting (`+x_0=500000`). -/
noncomputable def tmX0 : ℝ := 500000

/-- False northing (`+y_0=-5300000`). -/
noncomputable def tmY0 : ℝ := -5300000

/-- Rectifying series coefficient `e₁ = (1-√(1-e²))/(1+√(1-e²))`. -/
noncomputable def tmE1 : ℝ :=
  (1 - Real.sqrt (1 - tmE2)) / (1 + Real.sqrt (1 - tmE2))

/-- Rectifying latitude `μ` of the northing `y`: meridian distance
`M = (y - y₀)/k₀` (the latitude of origin is 0, so `M₀ = 0`) divided by
the rectifying radius. -/
noncomputable def tmMu (y : ℝ) : ℝ :=
  ((y - tmY0) / tmK0) /
    (tmA * (1 - tmE2 / 4 - 3 * tmE2 ^ 2 / 64 - 5 * tmE2 ^ 3 / 256))

/-- Footpoint latitude `φ₁` from the rectifying latitude. -/
noncomputable def tmPhi1 (y : ℝ) : ℝ :=
  tmMu y + (3 * tmE1 / 2 - 27 * tmE1 ^ 3 / 32) * Real.sin (2 * tmMu y)
    + (21 * tmE1 ^ 2 / 16 - 55 * tmE1 ^ 4 / 32) * Real.sin (4 * tmMu y)
    + (151 * tmE1 ^ 3 / 96) * Real.sin (6 * tmMu y)
    + (1097 * tmE1 ^ 4 / 512) * Real.sin (8 * tmMu y)

/-- The `proj4("EPSG:2180", "EPSG:4326", [x, y])` transform: ellipsoidal
Transverse Mercator inverse, input projected meters, output
`(lon, lat)` in degrees. -/
noncomputable def proj4_2180_to_4326 (p : ℝ × ℝ) : ℝ × ℝ :=
  let x := p.1
  let y := p.2
  let phi1 := tmPhi1 y
  let c1 := tmEp2 * Real.cos phi1 ^ 2
  let t1 := Real.tan phi1 ^ 2
  let sin2 := Real.sin phi1 ^ 2
  let n1 := tmA / Real.sqrt (1 - tmE2 * sin2)
  let r1 := tmA * (1 - tmE2) / ((1 - tmE2 * sin2) * Real.sqrt (1 - tmE2 * sin2))
  let d := (x - tmX0) / (n1 * tmK0)
  let phi := phi1 - (n1 * Real.tan phi1 / r1) *
      (d ^ 2 / 2 - (5 + 3 * t1 + 10 * c1 - 4 * c1 ^ 2 - 9 * tmEp2) * d ^ 4 / 24
        + (61 + 90 * t1 + 298 * c1 + 45 * t1 ^ 2 - 252 * tmEp2 - 3 * c1 ^ 2)
          * d ^ 6 / 720)
  let lam := tmLam0 + (d - (1 + 2 * t1 + c1) * d ^ 3 / 6
        + (5 - 2 * c1 + 28 * t1 - 3 * c1 ^ 2 + 8 * tmEp2 + 24 * t1 ^ 2)
          * d ^ 5 / 120) / Real.cos phi1
  (lam * 180 / Real.pi, phi * 180 / Real.pi)

/-- `transformPolygonCoordinates` from the source: transform every
coordinate pair within every ring from EPSG:2180 to EPSG:4326. -/
noncomputable def transformPolygonCoordinates (coord : List (List (ℝ × ℝ))) :
    List (List (ℝ × ℝ)) :=
  coord.map (fun ring => ring.map (fun p => proj4_2180_to_4326 p))

/-- The coordinate-transform step of `from2180to4326`, acting on the
decoded GeoJSON object.  The source chain
`if Polygon { … }  if MultiPolygon { … } else if Point { … }` is a
dispatch on the (immutable) geometry type, written here as a match:
`Polygon` and `MultiPolygon` transform every pair through
`transformPolygonCoordinates`, `Point` transforms its single pair, and
every other type is returned untouched. -/
noncomputable def transformGeometry (g : Geometry) : Geometry :=
  match g with
  | .polygon c => .polygon (transformPolygonCoordinates c)
  | .multiPolygon c => .multiPolygon (c.map (fun p => transformPolygonCoordinates p))
  | .point c => .point (proj4_2180_to_4326 c)
  | g => g

/-- `from2180to4326` from the source: parse the hex-encoded WKB string
(`wkx.Geometry.parse` throws on malformed input, modelled as
`UldkError.decodeError`) and transform the resulting GeoJSON coordinates
to EPSG:4326. -/
noncomputable def from2180to4326 (wkbFormatString : String) :
    Except UldkError Geometry :=
  match wkxParse wkbFormatString with
  | none => .error .decodeError
  | some g => .ok (transformGeometry g)

/-- A JS `Array.prototype.map` with a callback that can throw: stops at the
first failing element and propagates its error. -/
def mapExcept (f : α → Except ε β) : List α → Except ε (List β)
  | [] => .ok []
  | x :: xs => do
      let y ← f x
      let ys ← mapExcept f xs
      .ok (y :: ys)

/-- The body of the `try` block of `prepareGeometry`: split on newlines, take the
first line as the status (`const [status, ...response] = data.split("\n")`),
throw `notFound` if the status contains `-1`, otherwise decode every
remaining non-empty line (`response.filter(Boolean)`) through
`from2180to4326`. -/
noncomputable def parseGeometryResponse (data : String) :
    Except UldkError (List Geometry) :=
  if jsIncludes ((jsSplit data '\n').headD "") "-1" then .error .notFound
  else
    mapExcept from2180to4326
      (((jsSplit data '\n').drop 1).filter (fun s => s != ""))

/-- `prepareGeometry` from the source: the `try` block is
`parseGeometryResponse`; the `catch` logs the error and falls through,
returning `undefined` — modelled as `Option.none`. -/
noncomputable def prepareGeometry (data : String) : Option (List Geometry) :=
  (parseGeometryResponse data).toOption

/-! The request orchestrator (`useUldk`).  A network interaction is
modelled by its outcome: `Except String String`, either the response text
(`resp.text()`) or the message of a rejected `fetch`.  The React state is
a record passed and returned explicitly. -/

/-- The hook state: the four `useState` option lists and the error
slot (`string | null`, modelled as `Option String`). -/
structure UldkState where
  voivodeships : List ULOption
  districts : List ULOption
  tenants : List ULOption
  precincts : List ULOption
  error : Option String
deriving DecidableEq, Repr

/-- What `fetchObject` resolves to: on success the parsed option list; on a
caught failure it logs and then returns `() => controller.abort()` — a
function value, not an array. -/
inductive FetchObjectResult where
  | list (options : List ULOption)
  | abortFn
deriving DecidableEq, Repr

/-- `fetchObject` from the source (the URL construction is outside the
model; only the response outcome matters): return `prepareData` of the
response text, or the abort closure when the fetch (or `resp.text()`)
rejected and the `catch` ran. -/
def fetchObject (resp : Except String String) : FetchObjectResult :=
  match resp with
  | .ok data => .list (prepareData data)
  | .error _ => .abortFn

/-- `fetchDistricts` from the source: run `fetchObject` for
`obiekt=powiat` and set `districts` only when the result is an array
(`Array.isArray` guard); the surrounding `try`/`catch` is dead code since
`fetchObject` never throws. -/
def fetchDistricts (st : UldkState) (resp : Except String String) : UldkState :=
  match fetchObject resp with
  | .list l => { st with districts := l }
  | .abortFn => st

/-- `fetchTenants` from the source: as `fetchDistricts`, for
`obiekt=gmina`, setting `tenants`. -/
def fetchTenants (st : UldkState) (resp : Except String String) : UldkState :=
  match fetchObject resp with
  | .list l => { st with tenants := l }
  | .abortFn => st

/-- `fetchPrecincts` from the source: as `fetchDistricts`, for
`obiekt=obreb`, setting `precincts`. -/
def fetchPrecincts (st : UldkState) (resp : Except String String) : UldkState :=
  match fetchObject resp with
  | .list l => { st with precincts := l }
  | .abortFn => st

/-- The mount-time `useEffect` fetching the voivodeship list: on success
set `voivodeships` to `prepareData(data) || []` (`prepareData` is total,
so the `|| []` fallback never fires); on rejection the `.catch` sets the
error slot to `"Failed to fetch voivodeships" + e`. -/
def initialVoivodeshipEffect (st : UldkState) (resp : Except String String) :
    UldkState :=
  match resp with
  | .ok data => { st with voivodeships := prepareData data }
  | .error e => { st with error := some ("Failed to fetch voivodeships" ++ e) }

/-- `getRegionGeometryById` from the source: `await fetch(...)`,
`await resp.text()`, then `prepareGeometry`.  There is no `try`/`catch`
here: a rejected fetch rejects the returned promise (the error side of the
outer `Except`), while status/decode failures are swallowed inside
`prepareGeometry` and come back as `none` (`undefined`). -/
noncomputable def getRegionGeometryById (resp : Except String String) :
    Except String (Option (List Geometry)) :=
  match resp with
  | .error e => .error e
  | .ok data => .ok (prepareGeometry data)

/-- `getParcelGeometryById` from the source: identical to
`getRegionGeometryById` up to the request URL. -/
noncomputable def getParcelGeometryById (resp : Except String String) :
    Except String (Option (List Geometry)) :=
  match resp with
  | .error e => .error e
  | .ok data => .ok (prepareGeometry data)

/-- The hook props (`useUldkPropsType`): optional initial TERYT codes. -/
structure UseUldkProps where
  voivodeship : Option String
  district : Option String
  tenant : Option String
deriving DecidableEq, Repr

/-- JS truthiness of `props?.field` for an optional string: `undefined`
and the empty string are falsy. -/
def truthy : Option String → Bool
  | none => false
  | some s => s != ""

/-- One list request issued to the service: the `obiekt` query parameter
and the parent `teryt` code. -/
structure UldkRequest where
  object : String
  teryt : String
deriving DecidableEq, Repr

/-- The requests issued by the cascade-seeding `useEffect`:
`if (props?.voivodeship) fetchDistricts(props.voivodeship)` issues a
`powiat` request, and likewise `district`/`tenant` issue `gmina`/`obreb`
requests. -/
def seedRequests (props : UseUldkProps) : List UldkRequest :=
  (if truthy props.voivodeship then [⟨"powiat", props.voivodeship.getD ""⟩] else [])
    ++ (if truthy props.district then [⟨"gmina", props.district.getD ""⟩] else [])
    ++ (if truthy props.tenant then [⟨"obreb", props.tenant.getD ""⟩] else [])

/-- The state effect of the cascade-seeding `useEffect`: run each guarded
fetch in order, each against the outcome of its own network call. -/
def seedEffect (props : UseUldkProps) (st : UldkState)
    (respD respT respP : Except String String) : UldkState :=
  let st1 := if truthy props.voivodeship then fetchDistricts st respD else st
  let st2 := if truthy props.district then fetchTenants st1 respT else st1
  if truthy props.tenant then fetchPrecincts st2 respP else st2

/-! Spec readings of the list parser, for comparison with `prepareData`. -/

/-- The list parser as the claim words it: one option per pipe-containing
line after the header, with label the text before the pipe and value the
text after it. -/
def prepareDataClaimed (data : String) : List ULOption :=
  let list := jsSplit data '\n'
  (list.drop 1).filter (fun val => jsIncludes val "|")
    |>.map (fun val =>
      let cs := val.toList
      { label := String.mk (cs.takeWhile (fun c => c != '|')),
        value := String.mk ((cs.dropWhile (fun c => c != '|')).drop 1) })

/-- The list parser as the amended claim words it: label the text before
the first pipe, value the text after the first pipe up to the next pipe
(or the end of the line). -/
def prepareDataAmended (data : String) : List ULOption :=
  let list := jsSplit data '\n'
  (list.drop 1).filter (fun val => jsIncludes val "|")
    |>.map (fun val =>
      let cs := val.toList
      { label := String.mk (cs.takeWhile (fun c => c != '|')),
        value := String.mk
          (((cs.dropWhile (fun c => c != '|')).drop 1).takeWhile (fun c => c != '|')) })

/-- Structure of `jsSplitAux`: the first piece is the accumulator followed
by everything up to the first separator, and the remaining pieces are the
split of what follows that separator. -/
theorem jsSplitAux_structure (sep : Char) :
    ∀ (cs acc : List Char),
      jsSplitAux sep cs acc =
        (acc.reverse ++ cs.takeWhile (fun c => c != sep)) ::
          (if (cs.dropWhile (fun c => c != sep)).isEmpty then []
           else jsSplitAux sep (cs.dropWhile (fun c => c != sep)).tail [])
  | [], acc => by simp [jsSplitAux]
  | c :: cs, acc => by
      by_cases h : c = sep
      · subst h
        simp [jsSplitAux, List.takeWhile, List.dropWhile]
      · rw [jsSplitAux, if_neg h, jsSplitAux_structure sep cs (c :: acc)]
        have hb : (c != sep) = true := by simpa using h
        simp [List.takeWhile, List.dropWhile, hb]

/-- The first field of a JS pipe split is the text before the first pipe. -/
theorem jsSplit_field0 (val : String) :
    ((jsSplit val '|').headD "") =
      String.mk (val.toList.takeWhile (fun c => c != '|')) := by
  rw [jsSplit, jsSplitAux_structure]
  simp

/-- The second field of a JS pipe split is the text strictly between the
first pipe and the following pipe (or the end of the string). -/
theorem jsSplit_field1 (val : String) :
    (((jsSplit val '|').drop 1).headD "") =
      String.mk
        (((val.toList.dropWhile (fun c => c != '|')).drop 1).takeWhile
          (fun c => c != '|')) := by
  rw [jsSplit, jsSplitAux_structure]
  cases hd : val.toList.dropWhile (fun c => c != '|') with
  | nil =>
      simp
  | cons c rest =>
      simp only [List.isEmpty_cons, List.tail_cons, Bool.false_eq_true,
        if_false]
      rw [jsSplitAux_structure]
      simp

/-- C1: if the status line (the first line of the response) contains the
sentinel `-1`, the geometry pipeline fails with the not-found error and
`prepareGeometry` produces no geometry sequence at all. -/
theorem c1_status_not_found (data : String)
    (h : jsIncludes ((jsSplit data '\n').headD "") "-1" = true) :
    parseGeometryResponse data = .error .notFound
      ∧ prepareGeometry data = none := by
  have h1 : parseGeometryResponse data = .error .notFound := by
    unfold parseGeometryResponse
    rw [h]
    rfl
  refine ⟨h1, ?_⟩
  unfold prepareGeometry
  rw [h1]
  rfl

/-- Witness for C1 at the example input given in the spec, `"-1\n"`. -/
theorem c1_status_not_found_witness :
    jsIncludes ((jsSplit "-1\n" '\n').headD "") "-1" = true
      ∧ (parseGeometryResponse "-1\n" = .error .notFound
          ∧ prepareGeometry "-1\n" = none) :=
  ⟨by decide, c1_status_not_found "-1\n" (by decide)⟩

/-- C2 counterexample: on the line `A|1|2` the parser takes the second
pipe-separated field, `"1"`, as the value, not the whole text after the
first pipe (`"1|2"`) as the claim states. -/
theorem c2_value_after_pipe_cex :
    prepareData "h\nA|1|2" = [⟨"A", "1"⟩]
      ∧ prepareDataClaimed "h\nA|1|2" = [⟨"A", "1|2"⟩]
      ∧ prepareData "h\nA|1|2" ≠ prepareDataClaimed "h\nA|1|2" :=
  ⟨by decide, by decide, by decide⟩

/-- C2 (amended): `prepareData` discards the first line and returns, in
input order, exactly one option per remaining line containing a pipe,
with label the text before the first pipe and value the text after the
first pipe up to the next pipe (or the end of the line); lines without a
pipe are dropped.  In particular the two examples given in the spec hold. -/
theorem c2_list_parser_amended :
    (∀ data, prepareData data = prepareDataAmended data)
      ∧ prepareData "header\nA|1\nB|2\n" = [⟨"A", "1"⟩, ⟨"B", "2"⟩]
      ∧ prepareData "header" = [] := by
  refine ⟨?_, by decide, by decide⟩
  intro data
  unfold prepareData prepareDataAmended
  refine List.map_congr_left ?_
  intro val _
  show (ULOption.mk ((jsSplit val '|').headD "")
      (((jsSplit val '|').drop 1).headD "")) = _
  rw [ULOption.mk.injEq]
  exact ⟨jsSplit_field0 val, jsSplit_field1 val⟩

/-- C3: the reprojection step dispatches exactly by geometry type — a
single pair of a point is transformed, every pair of every polygon ring is
transformed, every pair of every ring of every constituent polygon of a
multipolygon is transformed, and every other geometry type is returned
with its coordinates untouched. -/
theorem c3_reprojection_dispatch (p : ℝ × ℝ) (ls mp : List (ℝ × ℝ))
    (rs mls : List (List (ℝ × ℝ))) (mpoly : List (List (List (ℝ × ℝ)))) :
    transformGeometry (.point p) = .point (proj4_2180_to_4326 p)
      ∧ transformGeometry (.polygon rs) =
          .polygon (rs.map (fun ring => ring.map (fun q => proj4_2180_to_4326 q)))
      ∧ transformGeometry (.multiPolygon mpoly) =
          .multiPolygon (mpoly.map (fun poly =>
            poly.map (fun ring => ring.map (fun q => proj4_2180_to_4326 q))))
      ∧ transformGeometry (.lineString ls) = .lineString ls
      ∧ transformGeometry (.multiPoint mp) = .multiPoint mp
      ∧ transformGeometry (.multiLineString mls) = .multiLineString mls := by
  refine ⟨rfl, ?_, ?_, rfl, rfl, rfl⟩ <;>
    simp [transformGeometry, transformPolygonCoordinates]

/-- C5: reprojecting polygon coordinates preserves the ring count and each
per-ring point count, and keeps rings and points in order: the `j`-th point
of the `i`-th output ring is exactly the transform of the `j`-th point of
the `i`-th input ring, so only the coordinate values change. -/
theorem c5_polygon_shape_preserved (coord : List (List (ℝ × ℝ))) :
    (transformPolygonCoordinates coord).length = coord.length
      ∧ (∀ i : Nat, ((transformPolygonCoordinates coord)[i]?.getD
            ([] : List (ℝ × ℝ))).length = (coord[i]?.getD []).length)
      ∧ (∀ i j : Nat, ((transformPolygonCoordinates coord)[i]?.getD
            ([] : List (ℝ × ℝ)))[j]? =
          ((coord[i]?.getD ([] : List (ℝ × ℝ)))[j]?).map
            (fun q => proj4_2180_to_4326 q)) := by
  refine ⟨by simp [transformPolygonCoordinates], ?_, ?_⟩
  · intro i
    unfold transformPolygonCoordinates
    rw [List.getElem?_map]
    cases coord[i]? <;> simp
  · intro i j
    unfold transformPolygonCoordinates
    rw [List.getElem?_map]
    cases coord[i]? <;> simp

/-- C7 counterexample: a failing district (likewise tenant, precinct) list
fetch leaves the error slot empty — no human-readable message is ever
recorded there by these fetches. -/
theorem c7_list_fetch_error_slot_cex :
    (fetchDistricts ⟨[], [], [], [], none⟩ (.error "network failure")).error = none
      ∧ (fetchTenants ⟨[], [], [], [], none⟩ (.error "network failure")).error = none
      ∧ (fetchPrecincts ⟨[], [], [], [], none⟩ (.error "network failure")).error = none :=
  ⟨rfl, rfl, rfl⟩

/-- C7 (amended): the district, tenant and precinct fetches never touch
the shared error slot — on failure (or success) it is left exactly as it
was, the failure being only logged; the sole writer of the error slot is
the initial voivodeship fetch, which on failure records
`"Failed to fetch voivodeships" + e`, overwriting any prior message. -/
theorem c7_error_slot_amended (st : UldkState) (e : String)
    (resp : Except String String) :
    (fetchDistricts st resp).error = st.error
      ∧ (fetchTenants st resp).error = st.error
      ∧ (fetchPrecincts st resp).error = st.error
      ∧ (initialVoivodeshipEffect st (.error e)).error =
          some ("Failed to fetch voivodeships" ++ e) := by
  refine ⟨?_, ?_, ?_, rfl⟩ <;> cases resp <;> rfl

/-- C9: seeding the hook with only a voivodeship code issues exactly one
district fetch (`obiekt=powiat`) with that code as `teryt`, and the
seeding effect only replaces the `districts` list with the parsed mocked
response — `tenants`, `precincts`, `voivodeships` and the error slot are
untouched and no tenant or precinct fetch is issued. -/
theorem c9_seed_voivodeship_only (v : String) (hv : v ≠ "")
    (st : UldkState) (rD rT rP : Except String String) (data : String)
    (hD : rD = .ok data) :
    seedRequests ⟨some v, none, none⟩ = [⟨"powiat", v⟩]
      ∧ seedEffect ⟨some v, none, none⟩ st rD rT rP =
          { st with districts := prepareData data } := by
  constructor
  · simp [seedRequests, truthy, hv]
  · simp [seedEffect, truthy, hv, hD, fetchDistricts, fetchObject]

/-- Witness for C9: seeding with `{voivodeship: "02"}` and a mocked
district response. -/
theorem c9_seed_voivodeship_only_witness :
    ("02" : String) ≠ ""
      ∧ (seedRequests ⟨some "02", none, none⟩ = [⟨"powiat", "02"⟩]
          ∧ seedEffect ⟨some "02", none, none⟩ ⟨[], [], [], [], none⟩
              (.ok "powiat\nWroclaw|0223\n") (.error "e1") (.error "e2") =
            { voivodeships := [],
              districts := prepareData "powiat\nWroclaw|0223\n",
              tenants := [], precincts := [], error := none }) :=
  ⟨by decide,
    c9_seed_voivodeship_only "02" (by decide) ⟨[], [], [], [], none⟩
      (.ok "powiat\nWroclaw|0223\n") (.error "e1") (.error "e2")
      "powiat\nWroclaw|0223\n" rfl⟩

/-- The decode step can only fail with `decodeError`. -/
theorem from2180_error_eq {s : String} {e : UldkError}
    (h : from2180to4326 s = .error e) : e = .decodeError := by
  unfold from2180to4326 at h
  cases hw : wkxParse s <;> rw [hw] at h <;> simp_all

/-- If any element of the list fails to decode, the throwing map over the
whole list fails with `decodeError`. -/
theorem mapExcept_decode_fails :
    ∀ (xs : List String), ∀ l ∈ xs, wkxParse l = none →
      mapExcept from2180to4326 xs = .error .decodeError := by
  intro xs
  induction xs with
  | nil => intro l hl; exact absurd hl (List.not_mem_nil l)
  | cons x xs ih =>
      intro l hmem hw
      rcases List.mem_cons.mp hmem with h1 | h2
      · subst h1
        have hx : from2180to4326 l = .error .decodeError := by
          unfold from2180to4326
          rw [hw]
        simp only [mapExcept]
        rw [hx]
        rfl
      · cases hx : from2180to4326 x with
        | error e =>
            rcases from2180_error_eq hx
            simp only [mapExcept]
            rw [hx]
            rfl
        | ok g =>
            simp only [mapExcept]
            rw [hx, ih l h2 hw]
            rfl

/-- C4: the geometry pipeline is all-or-nothing — on a successful-status
response in which some non-empty line fails to decode as WKB, the whole
call fails with the decode error and `prepareGeometry` returns no list at
all (the failure is swallowed by the `catch`, not raised to the caller). -/
theorem c4_all_or_nothing (data : String)
    (hok : jsIncludes ((jsSplit data '\n').headD "") "-1" = false)
    (hbad : ∃ l ∈ ((jsSplit data '\n').drop 1).filter (fun s => s != ""),
        wkxParse l = none) :
    parseGeometryResponse data = .error .decodeError
      ∧ prepareGeometry data = none := by
  obtain ⟨l, hmem, hw⟩ := hbad
  have h1 : parseGeometryResponse data = .error .decodeError := by
    unfold parseGeometryResponse
    rw [hok]
    simpa using mapExcept_decode_fails _ l hmem hw
  refine ⟨h1, ?_⟩
  unfold prepareGeometry
  rw [h1]
  rfl

/-- Witness for C4: a successful-status response holding one decodable
point line followed by the undecodable line `"zz"`. -/
theorem c4_all_or_nothing_witness :
    jsIncludes
        ((jsSplit "0\n010100000000000000000000000000000000000000\nzz" '\n').headD
          "") "-1" = false
      ∧ ("zz" ∈ ((jsSplit "0\n010100000000000000000000000000000000000000\nzz"
            '\n').drop 1).filter (fun s => s != "")
          ∧ wkxParse "zz" = none)
      ∧ (parseGeometryResponse "0\n010100000000000000000000000000000000000000\nzz" =
            .error .decodeError
          ∧ prepareGeometry "0\n010100000000000000000000000000000000000000\nzz" =
            none) :=
  ⟨by decide, ⟨by decide, rfl⟩,
    c4_all_or_nothing "0\n010100000000000000000000000000000000000000\nzz"
      (by decide) ⟨"zz", by decide, rfl⟩⟩

/-- C6 counterexample: a rejected network fetch is not caught by the
geometry lookups — the rejection propagates to the caller instead of
resolving to `undefined`. -/
theorem c6_network_error_propagates_cex :
    getRegionGeometryById (.error "network failure") = .error "network failure"
      ∧ getParcelGeometryById (.error "network failure") = .error "network failure"
      ∧ getRegionGeometryById (.error "network failure") ≠ .ok none
      ∧ getParcelGeometryById (.error "network failure") ≠ .ok none :=
  ⟨rfl, rfl, by simp [getRegionGeometryById], by simp [getParcelGeometryById]⟩

/-- C6 (amended): not-found and decode failures are caught inside
`prepareGeometry` and surfaced by both geometry lookups as `undefined`
(`none`); a network failure is not caught anywhere in the lookups and the
rejection propagates past the caller boundary. -/
theorem c6_geometry_failure_amended (e data : String) (err : UldkError)
    (h : parseGeometryResponse data = .error err) :
    getRegionGeometryById (.error e) = .error e
      ∧ getParcelGeometryById (.error e) = .error e
      ∧ getRegionGeometryById (.ok data) = .ok none
      ∧ getParcelGeometryById (.ok data) = .ok none := by
  have hp : prepareGeometry data = none := by
    unfold prepareGeometry
    rw [h]
    rfl
  exact ⟨rfl, rfl, by simp [getRegionGeometryById, hp],
    by simp [getParcelGeometryById, hp]⟩

/-- Witness for C6 (amended) at a not-found response and a network
failure. -/
theorem c6_geometry_failure_amended_witness :
    parseGeometryResponse "-1\n" = .error .notFound
      ∧ (getRegionGeometryById (.error "network failure") = .error "network failure"
          ∧ getParcelGeometryById (.error "network failure") = .error "network failure"
          ∧ getRegionGeometryById (.ok "-1\n") = .ok none
          ∧ getParcelGeometryById (.ok "-1\n") = .ok none) :=
  ⟨rfl, c6_geometry_failure_amended "network failure" "-1\n" .notFound rfl⟩

/-- The rectifying latitude of the false northing is zero. -/
theorem tmMu_origin : tmMu (-5300000) = 0 := by
  unfold tmMu tmY0
  norm_num

/-- The footpoint latitude of the false northing is zero. -/
theorem tmPhi1_origin : tmPhi1 (-5300000) = 0 := by
  unfold tmPhi1
  rw [tmMu_origin]
  simp

/-- The false origin of the projection maps back to the central meridian and
the equator, exactly. -/
theorem proj4_false_origin : proj4_2180_to_4326 (500000, -5300000) = (19, 0) := by
  unfold proj4_2180_to_4326
  rw [Prod.mk.injEq]
  norm_num [tmPhi1_origin, tmX0, Real.tan_zero, Real.cos_zero]
  unfold tmLam0
  field_simp

/-- C8: reprojecting the projected pair `(500000, -5300000)` at the false
origin yields exactly longitude 19°E and latitude 0°N — in particular
within the claimed 1e-6° tolerance — and the point transform of the pipeline is
exactly this map. -/
theorem c8_false_origin_reprojection :
    transformGeometry (.point (500000, -5300000)) =
        .point (proj4_2180_to_4326 (500000, -5300000))
      ∧ |(proj4_2180_to_4326 (500000, -5300000)).1 - 19| ≤ 1e-6
      ∧ |(proj4_2180_to_4326 (500000, -5300000)).2 - 0| ≤ 1e-6 := by
  refine ⟨rfl, ?_, ?_⟩ <;> rw [proj4_false_origin] <;> norm_num

/-- C10: on any failing underlying fetch, `fetchObject` resolves to the
abort closure (not an array), and each of the three guarded list fetches
leaves the whole state — in particular its option list — exactly as it
was. -/
theorem c10_fetch_failure_frame (e : String) (st : UldkState) :
    fetchObject (.error e) = .abortFn
      ∧ fetchDistricts st (.error e) = st
      ∧ fetchTenants st (.error e) = st
      ∧ fetchPrecincts st (.error e) = st :=
  ⟨rfl, rfl, rfl, rfl⟩

end Uldk
